import Mathlib

/-!
Verification of the pest/disease lookup and identification services
(`ml-service/app/pest_disease_lookup_service.py`,
`ml-service/app/disease_identification_service.py`).

Shallow embedding conventions:
* Python dict entries from the JSON knowledge base are modelled by the
  `Entry` structure; a field that may be absent from the dict is an
  `Option`.  For treatment records, `priority` and `effectiveness` may be
  absent, JSON `null`, or a value, hence `Option (Option _)`
  (`none` = key absent, `some none` = key present with value `null`).
* Python floats are modelled by `ℚ`; the similarity ratio computed by
  `difflib.SequenceMatcher(...).ratio()` (an external library call) is an
  abstract parameter `ratio : String → String → ℚ` threaded through the
  definitions.
* A Python exception is modelled by `none` in an `Option` result
  (`search_by_symptoms` can raise `ZeroDivisionError`).
* `dict` iteration order (insertion order in Python) is modelled by a
  `List (String × Entry)` of key/entry pairs.
* `list.sort(key=..., reverse=True)` is Python's stable sort with the key
  comparison reversed; it is modelled by `List.mergeSort` (also stable)
  with the corresponding descending comparison.
* `list(set(xs))` removes duplicates in an unspecified order; it is
  modelled by `List.dedup` and only its order-independent properties
  (membership, no duplicates) are stated.
-/

namespace LookupService

/-- Python `s.rstrip("s")`: remove every trailing `'s'` character. -/
def py_rstrip_s (s : String) : String :=
  String.mk ((s.toList.reverse.dropWhile (fun c => c = 's')).reverse)

/-- Python `s.lower()` (ASCII semantics), written over the character list
so that it evaluates by kernel reduction. -/
def py_lower (s : String) : String :=
  String.mk (s.toList.map Char.toLower)

/-- Python `s.strip()`: whitespace removed from both ends. -/
def py_strip (s : String) : String :=
  String.mk (((s.toList.dropWhile Char.isWhitespace).reverse.dropWhile
    Char.isWhitespace).reverse)

/-- Python `a in b` on strings: substring containment. -/
def py_substr (a b : String) : Bool :=
  b.toList.tails.any (fun t => a.toList.isPrefixOf t)

/-- A raw treatment record as found in an entry's `treatments` JSON list. -/
structure TreatmentRecord where
  method : Option String
  treatment : Option String
  application : Option String
  timing : Option String
  safety_notes : Option String
  priority : Option (Option ℤ)
  effectiveness : Option (Option ℚ)
deriving DecidableEq, Repr

/-- A knowledge-base entry (a JSON object); absent keys are `none`. -/
structure Entry where
  name : Option String
  common_name : Option String
  scientific_name : Option String
  category : Option String
  description : Option String
  alternative_names : Option (List String)
  symptoms : Option (List String)
  affected_crops : Option (List String)
  images : Option (List String)
  prevention : Option (List String)
  treatments : Option (List TreatmentRecord)
deriving DecidableEq, Repr

/-- The entry whose every field is absent. -/
def empty_entry : Entry :=
  ⟨none, none, none, none, none, none, none, none, none, none, none⟩

/-- The loaded database: either the combined shape
`{"pests_diseases": {...}}` or the separate shape
`{"pests": {...}, "diseases": {...}}` (the two on-disk shapes the code
supports); a `none` top-level key is absent from the JSON document. -/
structure Database where
  pests_diseases : Option (List (String × Entry))
  pests : Option (List (String × Entry))
  diseases : Option (List (String × Entry))
deriving DecidableEq, Repr

/-- `self.database[cat]` for the separate shape, `none` when `cat` is not a
key of the database document. -/
def db_lookup (db : Database) (cat : String) : Option (List (String × Entry)) :=
  if cat = "pests" then db.pests
  else if cat = "diseases" then db.diseases
  else none

/-- The list of key/entry pairs the search loops iterate over
(the combined mapping, or the two separate mappings in order). -/
def all_entries (db : Database) : List (String × Entry) :=
  match db.pests_diseases with
  | some entries => entries
  | none => (db.pests.getD []) ++ (db.diseases.getD [])

/-- `MatchResult` dataclass. -/
structure MatchResult where
  key : String
  entry : Entry
  confidence : ℚ
  match_type : String
  match_details : String
deriving DecidableEq, Repr

/-- `_is_exact_match`: the query equals one of the entry's (lowercased)
name fields, empty strings removed. -/
def is_exact_match (query : String) (e : Entry) : Bool :=
  let names_to_check :=
    [py_lower (e.name.getD ""),
     py_lower (e.common_name.getD ""),
     py_lower (e.scientific_name.getD "")]
    ++ (e.alternative_names.getD []).map py_lower
  (names_to_check.filter (fun n => n ≠ "")).contains query

/-- One step of the running-best update in `_calculate_fuzzy_match`: a
candidate replaces the best seen so far only on a strictly larger
confidence. -/
def upd_best (b : ℚ × String × String) (c : ℚ) (mtype details : String) :
    ℚ × String × String :=
  if b.1 < c then (c, mtype, details) else b

/-- `_calculate_fuzzy_match`: best similarity over the name fields
(each non-empty named field, then every alternative name), tagged with the
match type of the winning field; `none` when the best confidence is 0. -/
def calculate_fuzzy_match (ratio : String → String → ℚ) (query : String)
    (e : Entry) : Option MatchResult :=
  let b0 : ℚ × String × String := (0, "", "")
  let name := py_lower (e.name.getD "")
  let b1 := if name ≠ "" then
      upd_best b0 (ratio query name) "fuzzy"
        ("Fuzzy match with name: " ++ e.name.getD "")
    else b0
  let cn := py_lower (e.common_name.getD "")
  let b2 := if cn ≠ "" then
      upd_best b1 (ratio query cn) "fuzzy"
        ("Fuzzy match with common name: " ++ e.common_name.getD "")
    else b1
  let sn := py_lower (e.scientific_name.getD "")
  let b3 := if sn ≠ "" then
      upd_best b2 (ratio query sn) "scientific"
        ("Fuzzy match with scientific name: " ++ e.scientific_name.getD "")
    else b2
  let b4 := (e.alternative_names.getD []).foldl
    (fun b alt => upd_best b (ratio query (py_lower alt)) "alternative"
      ("Fuzzy match with alternative name: " ++ alt)) b3
  if 0 < b4.1 then
    some ⟨"", empty_entry, b4.1, b4.2.1, b4.2.2⟩
  else
    none

/-- The per-entry body shared by both shapes of `search_by_name`'s loop:
exact match short-circuits with confidence 1, otherwise the fuzzy result is
kept when it reaches `min_confidence`. -/
def process_entry (ratio : String → String → ℚ) (query : String)
    (min_confidence : ℚ) (exact_details : String) (kv : String × Entry) :
    Option MatchResult :=
  if is_exact_match query kv.2 then
    some ⟨kv.1, kv.2, 1, "exact", exact_details⟩
  else
    match calculate_fuzzy_match ratio query kv.2 with
    | some r =>
        if min_confidence ≤ r.confidence then
          some { r with key := kv.1, entry := kv.2 }
        else none
    | none => none

/-- Loop body for the combined `pests_diseases` shape, including the
category filter (`category.rstrip("s")`; a falsy empty category disables
the filter, and an entry with no `category` field never passes it). -/
def process_entry_combined (ratio : String → String → ℚ) (query : String)
    (category : Option String) (min_confidence : ℚ) (kv : String × Entry) :
    Option MatchResult :=
  match category with
  | some c =>
      if c ≠ "" ∧ kv.2.category ≠ some (py_rstrip_s c) then none
      else
        process_entry ratio query min_confidence
          ("Exact match found for " ++ (kv.2.category.getD "unknown")) kv
  | none =>
      process_entry ratio query min_confidence
        ("Exact match found for " ++ (kv.2.category.getD "unknown")) kv

/-- Loop body for the separate `pests`/`diseases` shape. -/
def process_entry_separate (ratio : String → String → ℚ) (query : String)
    (min_confidence : ℚ) (cat : String) (kv : String × Entry) :
    Option MatchResult :=
  process_entry ratio query min_confidence ("Exact match found in " ++ cat) kv

/-- The unsorted result list of `search_by_name` in entry-iteration
(first-seen) order. -/
def search_by_name_pre (ratio : String → String → ℚ) (db : Database)
    (query : String) (category : Option String) (min_confidence : ℚ) :
    List MatchResult :=
  let q := py_strip (py_lower query)
  match db.pests_diseases with
  | some entries =>
      entries.filterMap (process_entry_combined ratio q category min_confidence)
  | none =>
      let cats := match category with
        | some c => if c = "" then ["pests", "diseases"] else [c]
        | none => ["pests", "diseases"]
      cats.flatMap (fun c =>
        match db_lookup db c with
        | some entries =>
            entries.filterMap (process_entry_separate ratio q min_confidence c)
        | none => [])

/-- Python `results.sort(key=lambda x: x.confidence, reverse=True)`:
stable sort, confidence descending. -/
def sort_by_confidence_desc (l : List MatchResult) : List MatchResult :=
  l.mergeSort (fun a b => decide (b.confidence ≤ a.confidence))

/-- `search_by_name`. -/
def search_by_name (ratio : String → String → ℚ) (db : Database)
    (query : String) (category : Option String) (min_confidence : ℚ) :
    List MatchResult :=
  sort_by_confidence_desc (search_by_name_pre ratio db query category min_confidence)

/-- The inner-loop condition of `_calculate_symptom_match`'s partial pass:
one string is a substring of the other, or their similarity ratio exceeds
0.7. -/
def symptom_overlap (ratio : String → String → ℚ) (s es : String) : Bool :=
  py_substr s es || py_substr es s || decide ((7 : ℚ)/10 < ratio s es)

/-- Per-input-symptom score in `_calculate_symptom_match`: 1 on an exact
membership hit, else 0.7 when the scan finds a first partially matching
entry symptom, else 0. -/
def symptom_points (ratio : String → String → ℚ) (entry_symptoms : List String)
    (s : String) : ℚ :=
  if s ∈ entry_symptoms then 1
  else
    match entry_symptoms.find? (symptom_overlap ratio s) with
    | some _ => 7/10
    | none => 0

/-- `_calculate_symptom_match`.  Returns `none` exactly when the Python
code raises `ZeroDivisionError`: the entry has a non-empty `symptoms`
list (so the early `return 0.0` is not taken) and the input symptom list
is empty, making `len(symptoms)` zero in the final division. -/
def calculate_symptom_match (ratio : String → String → ℚ)
    (symptoms : List String) (e : Entry) : Option ℚ :=
  match e.symptoms with
  | none => some 0
  | some ss =>
      if ss = [] then some 0
      else
        let entry_symptoms := ss.map py_lower
        let matched := (symptoms.map (symptom_points ratio entry_symptoms)).sum
        if symptoms.length = 0 then none
        else some (min (matched / (symptoms.length : ℚ)) 1)

/-- `_matches_crop_type`: entries with no `affected_crops` field match
everything; otherwise the crop (lowercased) or `"all"` must be listed. -/
def matches_crop_type (e : Entry) (crop_type : String) : Bool :=
  match e.affected_crops with
  | none => true
  | some crops =>
      let affected := crops.map py_lower
      affected.contains (py_lower crop_type) || affected.contains "all"

/-- The `if crop_type and not self._matches_crop_type(...)` guard:
an entry is kept when the crop filter is falsy (absent or empty string) or
the entry matches the crop. -/
def crop_filter_passes (crop_type : Option String) (e : Entry) : Bool :=
  match crop_type with
  | some c => if c = "" then true else matches_crop_type e c
  | none => true

/-- Loop body of `search_by_symptoms`: skip crop-filtered entries, let a
`ZeroDivisionError` from the confidence computation propagate, and append
the entry when its confidence reaches the threshold. -/
def symptom_step (ratio : String → String → ℚ) (symptoms_lower : List String)
    (crop_type : Option String) (min_confidence : ℚ) (details : String)
    (acc : List MatchResult) (kv : String × Entry) : Option (List MatchResult) :=
  if crop_filter_passes crop_type kv.2 then
    match calculate_symptom_match ratio symptoms_lower kv.2 with
    | none => none
    | some confidence =>
        if min_confidence ≤ confidence then
          some (acc ++ [⟨kv.1, kv.2, confidence, "symptom", details⟩])
        else some acc
  else some acc

/-- `search_by_symptoms`; `none` models an escaping `ZeroDivisionError`. -/
def search_by_symptoms (ratio : String → String → ℚ) (db : Database)
    (symptoms : List String) (crop_type : Option String) (min_confidence : ℚ) :
    Option (List MatchResult) :=
  let sl := symptoms.map (fun s => py_strip (py_lower s))
  let raw : Option (List MatchResult) :=
    match db.pests_diseases with
    | some entries =>
        entries.foldlM (fun acc kv =>
          symptom_step ratio sl crop_type min_confidence
            ("Symptom match for " ++ (kv.2.category.getD "unknown")) acc kv) []
    | none =>
        (db.pests.getD []).foldlM (fun acc kv =>
            symptom_step ratio sl crop_type min_confidence
              "Symptom match in pests" acc kv) []
          >>= fun acc =>
        (db.diseases.getD []).foldlM (fun acc kv =>
            symptom_step ratio sl crop_type min_confidence
              "Symptom match in diseases" acc kv) acc
  raw.map sort_by_confidence_desc

/-- `TreatmentRecommendation` dataclass of the lookup service. -/
structure TreatmentRecommendation where
  method : String
  treatment : String
  application : String
  timing : String
  safety_notes : String
  priority : ℤ
  effectiveness : ℚ
deriving DecidableEq, Repr

/-- One raw treatment record turned into a `TreatmentRecommendation` by
`get_treatment_recommendations`.  `treatment_data.get("priority", 2)`
yields 2 when the key is absent; the method-based assignment (organic /
cultural → 1, else 2) applies only when the key is present with value
`null`, and likewise the 0.7 effectiveness fallback after
`get("effectiveness", 0.7)`. -/
def record_to_recommendation (t : TreatmentRecord) : TreatmentRecommendation :=
  let priority : ℤ :=
    match t.priority.getD (some 2) with
    | some v => v
    | none =>
        if py_lower (t.method.getD "") = "organic" then 1
        else if py_lower (t.method.getD "") = "cultural" then 1
        else 2
  let effectiveness : ℚ := (t.effectiveness.getD (some (7/10))).getD (7/10)
  ⟨t.method.getD "general", t.treatment.getD "", t.application.getD "",
   t.timing.getD "As needed", t.safety_notes.getD "Follow label instructions",
   priority, effectiveness⟩

/-- `treatments.sort(key=lambda x: (x.priority, -x.effectiveness))`:
stable, priority ascending then effectiveness descending. -/
def sort_treatments (l : List TreatmentRecommendation) :
    List TreatmentRecommendation :=
  l.mergeSort (fun a b =>
    decide (a.priority < b.priority ∨
      (a.priority = b.priority ∧ b.effectiveness ≤ a.effectiveness)))

/-- `get_treatment_recommendations`. -/
def get_treatment_recommendations (m : MatchResult) (organic_only : Bool) :
    List TreatmentRecommendation :=
  match m.entry.treatments with
  | none => []
  | some ts =>
      sort_treatments
        ((ts.filter (fun t =>
            !(organic_only && (py_lower (t.method.getD "") ≠ "organic" : Bool)))).map
          record_to_recommendation)

/-- Outcome of attempting to read and parse the database file. -/
inductive LoadOutcome where
  | missing
  | malformed
  | ok (data : Database)
deriving DecidableEq, Repr

/-- Whether a load attempt failed. -/
def LoadOutcome.failed : LoadOutcome → Bool
  | .missing => true
  | .malformed => true
  | .ok _ => false

/-- `PestDiseaseLookupService._load_database`: a missing file
(`FileNotFoundError`) or malformed JSON (`json.JSONDecodeError`) is caught
and yields the empty separate-shape base `{"pests": {}, "diseases": {}}`;
the function is total, never propagating either error. -/
def load_database : LoadOutcome → Database
  | .ok data => data
  | .missing => ⟨none, some [], some []⟩
  | .malformed => ⟨none, some [], some []⟩

/-- The fixed expert-resource list returned by `_load_expert_resources`
(name, contact, type, location; specialization and availability are not
consumed by the identification service and are omitted here). -/
structure ExpertResource where
  name : String
  contact : String
  type : String
  location : Option String
deriving DecidableEq, Repr

/-- The three hardcoded resources of
`PestDiseaseLookupService._load_expert_resources`. -/
def load_expert_resources : List ExpertResource :=
  [⟨"Agricultural Extension Office", "1-800-ASK-FARM", "government", some "Local"⟩,
   ⟨"Plant Disease Clinic", "university-clinic@example.edu", "academic",
     some "State University"⟩,
   ⟨"Integrated Pest Management Specialist", "ipm-expert@example.com",
     "consultant", none⟩]

end LookupService

namespace IdentService

open LookupService (Entry Database TreatmentRecord MatchResult
  search_by_name all_entries load_expert_resources py_rstrip_s)

/-- `IdentificationMatch` dataclass of the identification service. -/
structure IdentificationMatch where
  name : String
  scientific_name : Option String
  confidence : ℚ
  category : String
  description : String
  symptoms : List String
  images : List String
deriving DecidableEq, Repr

/-- The identification service's own (five-field) `TreatmentRecommendation`
dataclass. -/
structure Treatment where
  method : String
  treatment : String
  application : String
  timing : String
  safety_notes : String
deriving DecidableEq, Repr

/-- The identification service's `ExpertResource` dataclass
(name, contact, type, optional location). -/
structure Resource where
  name : String
  contact : String
  type : String
  location : Option String
deriving DecidableEq, Repr

/-- The caller-facing result dictionary built by
`_generate_comprehensive_result`; `fallback_mode` and `message` are keys
added only on the orchestrator's fallback path (`none` = key absent). -/
structure IdentificationResult where
  matches' : List IdentificationMatch
  treatments : List Treatment
  prevention_tips : List String
  expert_resources : List Resource
  confidence_level : String
  api_source : String
  fallback_mode : Option Bool
  message : Option String
deriving DecidableEq, Repr

/-- `_load_pest_disease_data`: the frontend data path is tried first, then
the app-local path; any failure (missing file or any load exception) falls
through, and if both fail the combined-shape empty base
`{"pests_diseases": {}}` is returned.  Total: never raises. -/
def load_pest_disease_data :
    LookupService.LoadOutcome → LookupService.LoadOutcome → Database
  | .ok data, _ => data
  | .missing, .ok data => data
  | .malformed, .ok data => data
  | _, _ => ⟨some [], none, none⟩

/-- `_find_local_match`: a name search at min_confidence 0.6, then — only
when that finds nothing and a truthy scientific name is available — a
scientific-name search at min_confidence 0.7; the top-ranked match's entry
is returned. -/
def find_local_match (ratio : String → String → ℚ) (db : Database)
    (api_name : String) (scientific_name : Option String) : Option Entry :=
  match search_by_name ratio db api_name none (6/10) with
  | r :: _ => some r.entry
  | [] =>
      match scientific_name with
      | some s =>
          if s = "" then none
          else
            match search_by_name ratio db s none (7/10) with
            | r :: _ => some r.entry
            | [] => none
      | none => none

/-- `_extract_treatments_from_local_data` on a plain entry dict (the
branch taken by `_generate_comprehensive_result`, which passes the local
entry, not a `MatchResult`): direct record parsing with this service's own
defaults. -/
def extract_treatments_from_entry (e : Entry) : List Treatment :=
  match e.treatments with
  | none => []
  | some ts => ts.map (fun t =>
      ⟨t.method.getD "general", t.treatment.getD "", t.application.getD "",
       t.timing.getD "", t.safety_notes.getD ""⟩)

/-- `_extract_prevention_tips`: `local_entry.get("prevention", [])`. -/
def extract_prevention_tips (e : Entry) : List String :=
  e.prevention.getD []

/-- The enriched match built on a knowledge-base hit: every display field
is overridden by the entry's field when that field is present, while the
vision-API confidence is kept. -/
def enrich_match (e : Entry) (m : IdentificationMatch) : IdentificationMatch :=
  ⟨e.name.getD m.name,
   (e.scientific_name.map some).getD m.scientific_name,
   m.confidence,
   e.category.getD m.category,
   e.description.getD m.description,
   e.symptoms.getD m.symptoms,
   e.images.getD m.images⟩

/-- One iteration of the enrichment loop in
`_generate_comprehensive_result`. -/
def process_match (ratio : String → String → ℚ) (db : Database)
    (m : IdentificationMatch) : IdentificationMatch :=
  match find_local_match ratio db m.name m.scientific_name with
  | some e => enrich_match e m
  | none => m

/-- The `all_treatments` accumulator of `_generate_comprehensive_result`:
record-specific treatments of every match that got a knowledge-base hit. -/
def collect_treatments (ratio : String → String → ℚ) (db : Database)
    (api_matches : List IdentificationMatch) : List Treatment :=
  api_matches.flatMap (fun m =>
    match find_local_match ratio db m.name m.scientific_name with
    | some e => extract_treatments_from_entry e
    | none => [])

/-- The `all_prevention_tips` accumulator of
`_generate_comprehensive_result`. -/
def collect_prevention_tips (ratio : String → String → ℚ) (db : Database)
    (api_matches : List IdentificationMatch) : List String :=
  api_matches.flatMap (fun m =>
    match find_local_match ratio db m.name m.scientific_name with
    | some e => extract_prevention_tips e
    | none => [])

/-- The five generic prevention tips substituted when none were found. -/
def generic_prevention_tips : List String :=
  ["Monitor plants regularly for early detection of issues",
   "Maintain proper plant spacing for good air circulation",
   "Water at soil level to avoid wetting leaves",
   "Remove and dispose of affected plant material properly",
   "Practice crop rotation to break disease cycles"]

/-- The two generic treatments substituted when none were found. -/
def generic_treatments : List Treatment :=
  [⟨"cultural", "Improve plant care practices",
    "Ensure proper watering, lighting, and nutrition", "Ongoing",
    "Monitor plant response to changes"⟩,
   ⟨"organic", "Neem oil or horticultural soap",
    "Spray according to product instructions", "Early morning or evening",
    "Test on small area first"⟩]

/-- The hardcoded default expert resources used when the lookup service
call raises. -/
def default_expert_resources : List Resource :=
  [⟨"Local Agricultural Extension Service",
    "Contact your local county extension office", "extension_service",
    some "Local"⟩,
   ⟨"Plant Disease Diagnostic Lab",
    "Submit samples to your state's plant diagnostic laboratory",
    "university", some "State University"⟩,
   ⟨"Certified Crop Advisor",
    "Find a CCA through the American Society of Agronomy", "consultant",
    some "Regional"⟩]

/-- `_get_fallback_expert_resources`: the lookup service's fixed resources
converted to the local dataclass, or the hardcoded defaults if that call
raises (`lookup_ok = false`). -/
def get_fallback_expert_resources (lookup_ok : Bool) : List Resource :=
  if lookup_ok then
    load_expert_resources.map (fun r => ⟨r.name, r.contact, r.type, r.location⟩)
  else default_expert_resources

/-- `_generate_comprehensive_result`.  `list(set(all_prevention_tips))` is
modelled by `List.dedup` (order of the Python result is unspecified). -/
def generate_comprehensive_result (ratio : String → String → ℚ) (db : Database)
    (lookup_ok : Bool) (api_matches : List IdentificationMatch)
    (confidence_level api_source : String) : IdentificationResult :=
  let unique_prevention_tips := (collect_prevention_tips ratio db api_matches).dedup
  let unique_prevention_tips :=
    if unique_prevention_tips = [] then generic_prevention_tips
    else unique_prevention_tips
  let all_treatments := collect_treatments ratio db api_matches
  let all_treatments :=
    if all_treatments = [] then generic_treatments else all_treatments
  ⟨api_matches.map (process_match ratio db),
   all_treatments,
   unique_prevention_tips,
   get_fallback_expert_resources lookup_ok,
   confidence_level,
   api_source,
   none,
   none⟩

/-- A `similar_images` element in a Plant.id disease suggestion. -/
structure SimilarImage where
  url : Option String
deriving DecidableEq, Repr

/-- The `details` object of a Plant.id disease suggestion. -/
structure DiseaseDetails where
  description : Option String
  entity_name : Option String
  common_names : Option (List String)
deriving DecidableEq, Repr

/-- A single Plant.id disease suggestion. -/
structure DiseaseSuggestion where
  name : Option String
  probability : Option ℚ
  details : Option DiseaseDetails
  similar_images : Option (List SimilarImage)
deriving DecidableEq, Repr

/-- The `is_healthy` object of a plant-health assessment. -/
structure IsHealthy where
  probability : Option ℚ
deriving DecidableEq, Repr

/-- A plant-health assessment object. -/
structure HealthAssessment where
  is_healthy : Option IsHealthy
deriving DecidableEq, Repr

/-- A raw Plant.id suggestion: `disease_suggestions` is `some _` exactly
when both `"disease" in suggestion` and
`"suggestions" in suggestion["disease"]` hold. -/
structure Suggestion where
  disease_suggestions : Option (List DiseaseSuggestion)
  plant_health_assessment : Option HealthAssessment
deriving DecidableEq, Repr

/-- `health_data.get("is_healthy", {}).get("probability", d)`. -/
def health_probability (h : HealthAssessment) (d : ℚ) : ℚ :=
  match h.is_healthy with
  | some ih => ih.probability.getD d
  | none => d

/-- One disease suggestion parsed into an `IdentificationMatch` by
`_parse_plant_id_suggestions`. -/
def parse_disease (d : DiseaseSuggestion) : IdentificationMatch :=
  let details := d.details.getD ⟨none, none, none⟩
  ⟨d.name.getD "Unknown Disease",
   details.entity_name,
   d.probability.getD 0,
   "disease",
   details.description.getD "No description available",
   details.common_names.getD [],
   ((d.similar_images.getD []).take 3).filterMap SimilarImage.url⟩

/-- The per-suggestion body of `_parse_plant_id_suggestions`: up to two
diseases per suggestion, or a synthesized health-issue match when only a
plant-health assessment with `is_healthy` probability below 0.5 is
present. -/
def parse_suggestion (s : Suggestion) : List IdentificationMatch :=
  match s.disease_suggestions with
  | some ds => (ds.take 2).map parse_disease
  | none =>
      match s.plant_health_assessment with
      | some h =>
          if health_probability h 0 < 1/2 then
            [⟨"Plant Health Issue Detected", none,
              1 - health_probability h (1/2), "health_issue",
              "Plant appears to have health issues that require attention",
              ["General plant stress indicators detected"], []⟩]
          else []
      | none => []

/-- `_parse_plant_id_suggestions`: top three raw suggestions. -/
def parse_plant_id_suggestions (suggestions : List Suggestion) :
    List IdentificationMatch :=
  (suggestions.take 3).flatMap parse_suggestion

/-- Behaviour of the primary vision client over the whole
`identify_disease` call: absent (no API key at startup), raising, a
`success=false` payload, or a `success=true` payload with parsed
suggestions and the computed confidence level. -/
inductive PrimaryOutcome where
  | noClient
  | raises
  | apiFailure (error : String)
  | apiSuccess (suggestions : List Suggestion) (confidence_level : String)
deriving DecidableEq, Repr

/-- Whether the primary path yields no usable result on this call
(no client, an exception, or `success=false`). -/
def PrimaryOutcome.fails : PrimaryOutcome → Bool
  | .noClient => true
  | .raises => true
  | .apiFailure _ => true
  | .apiSuccess _ _ => false

/-- The hardcoded single match of the orchestrator's fallback path (the
fallback client is still awaited, but its payload is not used to build the
result). -/
def fallback_matches : List IdentificationMatch :=
  [⟨"Unable to Identify Specific Issue", none, 3/10, "unknown",
    "Primary identification service unavailable. Please consult local experts for accurate diagnosis.",
    ["Visual inspection recommended", "Professional diagnosis needed"], []⟩]

/-- `identify_disease`: primary path on success, otherwise the fallback
result tagged `fallback_mode=True` with the degradation message. -/
def identify_disease (ratio : String → String → ℚ) (db : Database)
    (lookup_ok : Bool) (primary : PrimaryOutcome) : IdentificationResult :=
  match primary with
  | .apiSuccess suggestions confidence_level =>
      generate_comprehensive_result ratio db lookup_ok
        (parse_plant_id_suggestions suggestions) confidence_level "plant_id"
  | _ =>
      let r := generate_comprehensive_result ratio db lookup_ok
        fallback_matches "low" "fallback_analysis"
      { r with
          fallback_mode := some true,
          message := some "Primary identification service unavailable. Providing general guidance." }

end IdentService

namespace SpecModel

/-- The spec's per-input-symptom scoring rule, written from the spec text:
1.0 for an exact hit among the entry symptoms, otherwise 0.7 when a first
entry symptom is found such that one string contains the other or their
similarity ratio exceeds 0.7, otherwise 0. -/
def spec_symptom_points (ratio : String → String → ℚ)
    (entry_symptoms : List String) (s : String) : ℚ :=
  if s ∈ entry_symptoms then 1
  else
    match entry_symptoms.find? (fun es =>
      LookupService.py_substr s es || LookupService.py_substr es s ||
        decide ((7 : ℚ)/10 < ratio s es)) with
    | some _ => 7/10
    | none => 0

/-- The spec's symptom-match confidence: per-symptom scores summed,
divided by the number of input symptoms, capped at 1.0. -/
def spec_symptom_confidence (ratio : String → String → ℚ)
    (symptoms entry_symptoms : List String) : ℚ :=
  min (((symptoms.map (spec_symptom_points ratio entry_symptoms)).sum) /
    (symptoms.length : ℚ)) 1

end SpecModel

namespace LookupService

/-- The lowercased name-field candidates whose similarity ratios
`_calculate_fuzzy_match` examines: each of name / common name /
scientific name when non-empty after lowercasing, then every alternative
name (lowercased, not filtered for emptiness). -/
def fuzzy_candidates (e : Entry) : List String :=
  (if py_lower (e.name.getD "") ≠ "" then [py_lower (e.name.getD "")] else []) ++
  (if py_lower (e.common_name.getD "") ≠ "" then [py_lower (e.common_name.getD "")] else []) ++
  (if py_lower (e.scientific_name.getD "") ≠ "" then [py_lower (e.scientific_name.getD "")] else []) ++
  (e.alternative_names.getD []).map py_lower

/-- The unsorted recommendation list of `get_treatment_recommendations`
(record order), before the final sort. -/
def treatment_candidates (m : MatchResult) (organic_only : Bool) :
    List TreatmentRecommendation :=
  match m.entry.treatments with
  | none => []
  | some ts =>
      (ts.filter (fun t =>
          !(organic_only && (py_lower (t.method.getD "") ≠ "organic" : Bool)))).map
        record_to_recommendation

end LookupService

namespace Fixtures

open LookupService IdentService

/-- A constant similarity function, usable wherever a concrete `ratio`
instance is needed. -/
def zero_ratio : String → String → ℚ := fun _ _ => 0

/-- A treatment record whose `method` is `"organic"` and whose `priority`
and `effectiveness` keys are absent. -/
def organic_record_no_priority : TreatmentRecord :=
  ⟨some "organic", some "neem oil", none, none, none, none, none⟩

/-- A match whose entry carries only `organic_record_no_priority`. -/
def organic_match : MatchResult :=
  ⟨"k", { empty_entry with treatments := some [organic_record_no_priority] },
   1, "exact", "d"⟩

/-- A treatment record with explicit out-of-range priority 7 and
effectiveness 2. -/
def out_of_range_record : TreatmentRecord :=
  ⟨some "chemical", some "spray", none, none, none, some (some 7), some (some 2)⟩

/-- A match whose entry carries only `out_of_range_record`. -/
def out_of_range_match : MatchResult :=
  ⟨"x", { empty_entry with treatments := some [out_of_range_record] },
   1, "exact", "d"⟩

/-- A treatment record with in-range explicit values. -/
def in_range_record : TreatmentRecord :=
  ⟨some "organic", some "soap", none, none, none, some (some 1), some (some 1)⟩

/-- A match whose entry carries only `in_range_record`. -/
def in_range_match : MatchResult :=
  ⟨"y", { empty_entry with treatments := some [in_range_record] },
   1, "exact", "d"⟩

/-- The entry of the spec's Scenario C, with symptoms
`["yellowing leaves", "wilting", "stunted growth"]`. -/
def scenario_c_entry : Entry :=
  { empty_entry with
      name := some "Test Disease",
      symptoms := some ["yellowing leaves", "wilting", "stunted growth"] }

/-- A one-entry combined-shape database whose entry is named `"Aphids"`. -/
def aphids_entry : Entry :=
  { empty_entry with
      name := some "Aphids",
      category := some "pest",
      description := some "Small sap-sucking insects",
      symptoms := some ["sticky residue", "curled leaves"],
      prevention := some ["encourage beneficial insects"],
      treatments := some [organic_record_no_priority] }

/-- A combined-shape database holding only `aphids_entry`. -/
def aphids_db : Database := ⟨some [("aphids", aphids_entry)], none, none⟩

/-- A combined-shape database with no entries. -/
def empty_db : Database := ⟨some [], none, none⟩

/-- A vision-API match for the enrichment theorems. -/
def api_match : IdentificationMatch :=
  ⟨"Aphids", none, 9/10, "unknown", "api description", ["api symptom"], ["img"]⟩

end Fixtures




section Claims

open LookupService IdentService Fixtures

/-- C2: for a treatment record whose `priority` key is absent and whose
method is `"organic"`, `get_treatment_recommendations` assigns priority 2
(the default supplied by `get("priority", 2)`), not the method-based
priority 1 announced by the code's own comment; the 0.7 default for an
absent `effectiveness` key does hold. -/
theorem c2_absent_priority_gets_2 :
    (get_treatment_recommendations organic_match false).map
      TreatmentRecommendation.priority = [2] ∧
    (get_treatment_recommendations organic_match false).map
      TreatmentRecommendation.effectiveness = [7/10] := by
  constructor <;>
    simp [get_treatment_recommendations, organic_match, sort_treatments,
      List.mergeSort_singleton, record_to_recommendation,
      organic_record_no_priority, empty_entry]

/-- C9: both knowledge-base loaders fail soft: a missing file or malformed
JSON never escapes (the loaders are total functions of the read outcome),
and every failure path yields a base with zero entries — the lookup
service's `{"pests": {}, "diseases": {}}` and the identification service's
`{"pests_diseases": {}}`. -/
theorem c9_load_fails_soft (o o' : LoadOutcome) :
    (o.failed = true →
      load_database o = ⟨none, some [], some []⟩ ∧
      all_entries (load_database o) = []) ∧
    (o.failed = true → o'.failed = true →
      load_pest_disease_data o o' = ⟨some [], none, none⟩ ∧
      all_entries (load_pest_disease_data o o') = []) := by
  cases o <;> cases o' <;>
    simp [LoadOutcome.failed, load_database, load_pest_disease_data, all_entries]

/-- C9 witness: both failure outcomes instantiated. -/
theorem c9_load_fails_soft_witness :
    LoadOutcome.missing.failed = true ∧ LoadOutcome.malformed.failed = true ∧
    (load_database .missing = ⟨none, some [], some []⟩ ∧
      all_entries (load_database .missing) = []) ∧
    (load_pest_disease_data .missing .malformed = ⟨some [], none, none⟩ ∧
      all_entries (load_pest_disease_data .missing .malformed) = []) :=
  ⟨rfl, rfl, (c9_load_fails_soft .missing .malformed).1 rfl,
    (c9_load_fails_soft .missing .malformed).2 rfl rfl⟩

/-- C5 counterexample: a record carrying explicit priority 7 and
effectiveness 2 is returned unchanged, so the returned priority is not in
`{1, 2, 3}` and the returned effectiveness is not in `[0, 1]`. -/
theorem c5_range_counterexample :
    (get_treatment_recommendations out_of_range_match false).map
      TreatmentRecommendation.priority = [7] ∧
    (get_treatment_recommendations out_of_range_match false).map
      TreatmentRecommendation.effectiveness = [2] ∧
    ¬((7 : ℤ) = 1 ∨ (7 : ℤ) = 2 ∨ (7 : ℤ) = 3) ∧ ¬((2 : ℚ) ≤ 1) := by
  refine ⟨?_, ?_, by decide, by norm_num⟩ <;>
    simp [get_treatment_recommendations, out_of_range_match, sort_treatments,
      List.mergeSort_singleton, record_to_recommendation,
      out_of_range_record, empty_entry]

end Claims

section Claims2

open LookupService IdentService Fixtures

/-- C6: for every assembled identification result, the expert-resource
list is non-empty (the hardcoded three-resource default set replacing it
when the lookup-service call fails), the treatments list is exactly the
two generic entries (cultural care-practices, organic neem oil / soap)
when no record-specific treatments were collected, and the prevention
tips fall back to the five generic tips when none were collected and
otherwise are the collected tips with duplicates removed (set
semantics). -/
theorem c6_result_fallbacks (ratio : String → String → ℚ) (db : Database)
    (lookup_ok : Bool) (api_matches : List IdentificationMatch)
    (cl src : String) :
    (generate_comprehensive_result ratio db lookup_ok api_matches cl src).expert_resources ≠ [] ∧
    (lookup_ok = false →
      (generate_comprehensive_result ratio db lookup_ok api_matches cl src).expert_resources =
        default_expert_resources) ∧
    (collect_treatments ratio db api_matches = [] →
      (generate_comprehensive_result ratio db lookup_ok api_matches cl src).treatments =
        generic_treatments) ∧
    (collect_prevention_tips ratio db api_matches = [] →
      (generate_comprehensive_result ratio db lookup_ok api_matches cl src).prevention_tips =
        generic_prevention_tips) ∧
    (collect_prevention_tips ratio db api_matches ≠ [] →
      (generate_comprehensive_result ratio db lookup_ok api_matches cl src).prevention_tips.Nodup ∧
      ∀ t, t ∈ (generate_comprehensive_result ratio db lookup_ok api_matches cl src).prevention_tips ↔
        t ∈ collect_prevention_tips ratio db api_matches) := by
  refine ⟨?_, ?_, ?_, ?_, ?_⟩
  · cases lookup_ok <;>
      simp [generate_comprehensive_result, get_fallback_expert_resources,
        default_expert_resources, load_expert_resources]
  · intro h
    subst h
    simp [generate_comprehensive_result, get_fallback_expert_resources]
  · intro h
    simp [generate_comprehensive_result, h]
  · intro h
    simp [generate_comprehensive_result, h]
  · intro h
    have hd : ¬((collect_prevention_tips ratio db api_matches).dedup = []) := by
      simpa [List.dedup_eq_nil] using h
    exact ⟨by simp [generate_comprehensive_result, hd, List.nodup_dedup],
      fun t => by simp [generate_comprehensive_result, hd, List.mem_dedup]⟩

/-- C6 witness: the empty-input instance, with a failing lookup call. -/
theorem c6_result_fallbacks_witness :
    (generate_comprehensive_result zero_ratio empty_db false [] "low" "x").expert_resources ≠ [] ∧
    (generate_comprehensive_result zero_ratio empty_db false [] "low" "x").expert_resources =
      default_expert_resources ∧
    (generate_comprehensive_result zero_ratio empty_db false [] "low" "x").treatments =
      generic_treatments ∧
    (generate_comprehensive_result zero_ratio empty_db false [] "low" "x").prevention_tips =
      generic_prevention_tips := by
  have h := c6_result_fallbacks zero_ratio empty_db false [] "low" "x"
  exact ⟨h.1, h.2.1 rfl, h.2.2.1 rfl, h.2.2.2.1 rfl⟩

/-- C7: whenever the primary vision client yields no usable result on this
call (no configured client, an exception, or a `success=false` payload),
`identify_disease` returns — rather than raises — a result with
confidence level `"low"`, api source `"fallback_analysis"`,
`fallback_mode` set to true together with the user-facing degradation
message, and a non-empty expert-resource list. -/
theorem c7_fallback_result (ratio : String → String → ℚ) (db : Database)
    (lookup_ok : Bool) (primary : PrimaryOutcome)
    (h : primary.fails = true) :
    (identify_disease ratio db lookup_ok primary).confidence_level = "low" ∧
    (identify_disease ratio db lookup_ok primary).api_source = "fallback_analysis" ∧
    (identify_disease ratio db lookup_ok primary).fallback_mode = some true ∧
    (identify_disease ratio db lookup_ok primary).message =
      some "Primary identification service unavailable. Providing general guidance." ∧
    (identify_disease ratio db lookup_ok primary).expert_resources ≠ [] := by
  cases primary
  case apiSuccess s cl => simp [PrimaryOutcome.fails] at h
  all_goals
    refine ⟨rfl, rfl, rfl, rfl, ?_⟩
  all_goals
    cases lookup_ok <;>
      simp [identify_disease, generate_comprehensive_result,
        get_fallback_expert_resources, default_expert_resources,
        load_expert_resources]

/-- C7 witness: the always-raising primary client. -/
theorem c7_fallback_result_witness :
    PrimaryOutcome.raises.fails = true ∧
    (identify_disease zero_ratio empty_db true .raises).confidence_level = "low" ∧
    (identify_disease zero_ratio empty_db true .raises).api_source = "fallback_analysis" ∧
    (identify_disease zero_ratio empty_db true .raises).fallback_mode = some true ∧
    (identify_disease zero_ratio empty_db true .raises).message =
      some "Primary identification service unavailable. Providing general guidance." ∧
    (identify_disease zero_ratio empty_db true .raises).expert_resources ≠ [] :=
  ⟨rfl, c7_fallback_result zero_ratio empty_db true .raises rfl⟩

end Claims2

section Claims3

open LookupService IdentService Fixtures

/-- C8: when a vision-API match gets a knowledge-base hit during result
generation, the processed match is the enriched one: each display field
(name, scientific name, category, description, symptoms, images) is taken
from the entry whenever the entry carries that field, while the
confidence is the vision API's, unchanged; and the result's match list is
exactly the processed matches. -/
theorem c8_enrichment_preserves_confidence (ratio : String → String → ℚ)
    (db : Database) (m : IdentificationMatch) (e : Entry)
    (h : find_local_match ratio db m.name m.scientific_name = some e) :
    process_match ratio db m = enrich_match e m ∧
    (process_match ratio db m).confidence = m.confidence ∧
    (∀ v, e.name = some v → (process_match ratio db m).name = v) ∧
    (∀ v, e.scientific_name = some v →
      (process_match ratio db m).scientific_name = some v) ∧
    (∀ v, e.category = some v → (process_match ratio db m).category = v) ∧
    (∀ v, e.description = some v → (process_match ratio db m).description = v) ∧
    (∀ v, e.symptoms = some v → (process_match ratio db m).symptoms = v) ∧
    (∀ v, e.images = some v → (process_match ratio db m).images = v) ∧
    ∀ ams cl src lk,
      (generate_comprehensive_result ratio db lk ams cl src).matches' =
        ams.map (process_match ratio db) := by
  have hp : process_match ratio db m = enrich_match e m := by
    simp [process_match, h]
  rw [hp]
  refine ⟨rfl, rfl, ?_, ?_, ?_, ?_, ?_, ?_, fun ams cl src lk => rfl⟩ <;>
    intro v hv <;> simp [enrich_match, hv]

end Claims3

section Claims4

open LookupService IdentService Fixtures

/-- C8 witness: a concrete knowledge-base hit for the name `"Aphids"`. -/
theorem c8_enrichment_preserves_confidence_witness :
    find_local_match zero_ratio aphids_db api_match.name api_match.scientific_name =
      some aphids_entry ∧
    process_match zero_ratio aphids_db api_match = enrich_match aphids_entry api_match ∧
    (process_match zero_ratio aphids_db api_match).confidence = api_match.confidence := by
  have hpre : search_by_name_pre zero_ratio aphids_db "Aphids" none (6/10) =
      [⟨"aphids", aphids_entry, 1, "exact", "Exact match found for pest"⟩] := by
    decide
  have h : find_local_match zero_ratio aphids_db api_match.name
      api_match.scientific_name = some aphids_entry := by
    simp [find_local_match, api_match, search_by_name, sort_by_confidence_desc,
      hpre, List.mergeSort_singleton]
  have hc := c8_enrichment_preserves_confidence zero_ratio aphids_db api_match
    aphids_entry h
  exact ⟨h, hc.1, hc.2.1⟩

end Claims4

section Claims5

open LookupService IdentService Fixtures

/-- Per-symptom scores over an empty entry-symptom list are 0. -/
theorem spec_symptom_points_nil (ratio : String → String → ℚ) (s : String) :
    SpecModel.spec_symptom_points ratio [] s = 0 := by
  simp [SpecModel.spec_symptom_points]

/-- The code's per-symptom score is the spec's per-symptom score. -/
theorem symptom_points_eq_spec (ratio : String → String → ℚ)
    (es : List String) (s : String) :
    symptom_points ratio es s = SpecModel.spec_symptom_points ratio es s := rfl

/-- C3: for every non-empty symptom list, `_calculate_symptom_match`
computes exactly the spec's formula — per-symptom scores (1 for an exact
hit, else 0.7 at the first containing-or-similar entry symptom, else 0)
summed, divided by the number of input symptoms and capped at 1 — over
the lowercased entry symptoms; and on Scenario C (both symptoms exact
hits of a three-symptom entry) the confidence is exactly 1. -/
theorem c3_symptom_confidence_formula (ratio : String → String → ℚ)
    (symptoms : List String) (e : Entry) (h : symptoms ≠ []) :
    calculate_symptom_match ratio symptoms e =
      some (SpecModel.spec_symptom_confidence ratio symptoms
        ((e.symptoms.getD []).map py_lower)) ∧
    calculate_symptom_match ratio ["yellowing leaves", "wilting"]
      scenario_c_entry = some 1 := by
  have hlen : ¬(symptoms.length = 0) := by
    simpa [List.length_eq_zero] using h
  constructor
  · have hzero : ∀ (es : List String), es = [] →
        SpecModel.spec_symptom_confidence ratio symptoms es = 0 := by
      intro es hes
      subst hes
      have : (symptoms.map (SpecModel.spec_symptom_points ratio [])).sum = 0 :=
        List.sum_eq_zero (by
          intro x hx
          rcases List.mem_map.mp hx with ⟨s, _, rfl⟩
          exact spec_symptom_points_nil ratio s)
      simp [SpecModel.spec_symptom_confidence, this]
    cases he : e.symptoms with
    | none =>
        simp [calculate_symptom_match, he, hzero [] rfl]
    | some ss =>
        by_cases hss : ss = []
        · subst hss
          simp [calculate_symptom_match, he, hzero [] rfl]
        · simp only [calculate_symptom_match, he, if_neg hss, if_neg hlen,
            SpecModel.spec_symptom_confidence]
          rfl
  · have h1 : symptom_points ratio
        [py_lower "yellowing leaves", py_lower "wilting", py_lower "stunted growth"]
        "yellowing leaves" = 1 := by
      rw [symptom_points, if_pos (by decide)]
    have h2 : symptom_points ratio
        [py_lower "yellowing leaves", py_lower "wilting", py_lower "stunted growth"]
        "wilting" = 1 := by
      rw [symptom_points, if_pos (by decide)]
    simp [calculate_symptom_match, scenario_c_entry, h1, h2]

/-- C3 witness: a one-symptom list against the empty entry, plus the
Scenario C instance. -/
theorem c3_symptom_confidence_formula_witness :
    (["a"] : List String) ≠ [] ∧
    (calculate_symptom_match zero_ratio ["a"] empty_entry =
      some (SpecModel.spec_symptom_confidence zero_ratio ["a"]
        ((LookupService.empty_entry.symptoms.getD []).map py_lower)) ∧
     calculate_symptom_match zero_ratio ["yellowing leaves", "wilting"]
       scenario_c_entry = some 1) :=
  ⟨by decide, c3_symptom_confidence_formula zero_ratio ["a"] empty_entry (by decide)⟩

end Claims5

section Claims6

open LookupService IdentService Fixtures

/-- On an empty input-symptom list, an entry that passes the crop filter
and has a non-empty `symptoms` list makes the loop body raise
(`ZeroDivisionError` from the confidence division). -/
theorem symptom_step_none_of_bad (ratio : String → String → ℚ)
    (crop_type : Option String) (mc : ℚ) (d : String) (acc : List MatchResult)
    (kv : String × Entry)
    (hpass : crop_filter_passes crop_type kv.2 = true)
    (hsym : kv.2.symptoms.getD [] ≠ []) :
    symptom_step ratio [] crop_type mc d acc kv = none := by
  cases hs : kv.2.symptoms with
  | none => simp [hs] at hsym
  | some ss =>
      have hss : ¬(ss = []) := by simpa [hs] using hsym
      simp [symptom_step, hpass, calculate_symptom_match, hs, hss]

/-- On an empty input-symptom list, every other entry is processed without
raising. -/
theorem symptom_step_some_of_good (ratio : String → String → ℚ)
    (crop_type : Option String) (mc : ℚ) (d : String) (acc : List MatchResult)
    (kv : String × Entry)
    (h : ¬(crop_filter_passes crop_type kv.2 = true ∧ kv.2.symptoms.getD [] ≠ [])) :
    ∃ acc', symptom_step ratio [] crop_type mc d acc kv = some acc' := by
  by_cases hpass : crop_filter_passes crop_type kv.2 = true
  · have hsym : kv.2.symptoms.getD [] = [] := by
      by_contra hc
      exact h ⟨hpass, hc⟩
    cases hs : kv.2.symptoms with
    | none =>
        by_cases hmc : mc ≤ (0 : ℚ)
        · exact ⟨acc ++ [⟨kv.1, kv.2, 0, "symptom", d⟩],
            by simp [symptom_step, hpass, calculate_symptom_match, hs, hmc]⟩
        · exact ⟨acc, by simp [symptom_step, hpass, calculate_symptom_match, hs, hmc]⟩
    | some ss =>
        have hss : ss = [] := by simpa [hs] using hsym
        subst hss
        by_cases hmc : mc ≤ (0 : ℚ)
        · exact ⟨acc ++ [⟨kv.1, kv.2, 0, "symptom", d⟩],
            by simp [symptom_step, hpass, calculate_symptom_match, hs, hmc]⟩
        · exact ⟨acc, by simp [symptom_step, hpass, calculate_symptom_match, hs, hmc]⟩
  · have hpass' : crop_filter_passes crop_type kv.2 = false :=
      Bool.eq_false_iff.mpr hpass
    exact ⟨acc, by simp [symptom_step, hpass']⟩

/-- A fold in the `Option` monad fails as soon as some listed element makes
the body fail, provided the body succeeds on all other elements. -/
theorem foldlM_none_of_bad {bad : String × Entry → Prop}
    (f : List MatchResult → (String × Entry) → Option (List MatchResult))
    (hbad : ∀ acc kv, bad kv → f acc kv = none)
    (hgood : ∀ acc kv, ¬bad kv → ∃ acc', f acc kv = some acc') :
    ∀ (l : List (String × Entry)) (acc : List MatchResult),
      (∃ kv ∈ l, bad kv) → l.foldlM f acc = none := by
  intro l
  induction l with
  | nil => intro acc h; simp at h
  | cons x xs ih =>
      intro acc h
      by_cases hx : bad x
      · simp [List.foldlM_cons, hbad acc x hx]
      · rcases hgood acc x hx with ⟨acc', ha⟩
        have hxs : ∃ kv ∈ xs, bad kv := by
          rcases h with ⟨kv, hkv, hb⟩
          rcases List.mem_cons.mp hkv with rfl | hin
          · exact absurd hb hx
          · exact ⟨kv, hin, hb⟩
        simp [List.foldlM_cons, ha, ih acc' hxs]

/-- C10: calling `search_by_symptoms` with an empty symptom list raises a
`ZeroDivisionError` (modelled as `none`) whenever the database holds at
least one entry that passes the crop filter and has a non-empty
`symptoms` field: the matched-symptom sum is divided by the number of
input symptoms with no guard. -/
theorem c10_empty_symptoms_raises (ratio : String → String → ℚ)
    (db : Database) (crop_type : Option String) (mc : ℚ)
    (h : ∃ kv ∈ all_entries db,
      crop_filter_passes crop_type kv.2 = true ∧ kv.2.symptoms.getD [] ≠ []) :
    search_by_symptoms ratio db [] crop_type mc = none := by
  cases hd : db.pests_diseases with
  | some entries =>
      have h' : ∃ kv ∈ entries,
          crop_filter_passes crop_type kv.2 = true ∧ kv.2.symptoms.getD [] ≠ [] := by
        rwa [all_entries, hd] at h
      simp only [search_by_symptoms, hd, List.map_nil]
      rw [foldlM_none_of_bad _
        (fun acc kv hkv => symptom_step_none_of_bad ratio crop_type mc _ acc kv hkv.1 hkv.2)
        (fun acc kv hkv => symptom_step_some_of_good ratio crop_type mc _ acc kv hkv)
        entries [] h']
      rfl
  | none =>
      rcases h with ⟨kv, hmem, hp⟩
      rw [all_entries, hd] at hmem
      simp only [search_by_symptoms, hd, List.map_nil]
      rcases List.mem_append.mp hmem with hin | hin
      · rw [foldlM_none_of_bad _
          (fun acc kv hkv => symptom_step_none_of_bad ratio crop_type mc _ acc kv hkv.1 hkv.2)
          (fun acc kv hkv => symptom_step_some_of_good ratio crop_type mc _ acc kv hkv)
          (db.pests.getD []) [] ⟨kv, hin, hp⟩]
        rfl
      · cases hres : (db.pests.getD []).foldlM (fun acc kv =>
            symptom_step ratio [] crop_type mc "Symptom match in pests" acc kv) [] with
        | none => simp [hres]
        | some acc =>
            have h2 := foldlM_none_of_bad
              (fun acc kv =>
                symptom_step ratio [] crop_type mc "Symptom match in diseases" acc kv)
              (fun acc kv hkv => symptom_step_none_of_bad ratio crop_type mc
                "Symptom match in diseases" acc kv hkv.1 hkv.2)
              (fun acc kv hkv => symptom_step_some_of_good ratio crop_type mc
                "Symptom match in diseases" acc kv hkv)
              (db.diseases.getD []) acc ⟨kv, hin, hp⟩
            simp [h2]

/-- C10 witness: a one-entry database whose entry lists a symptom. -/
theorem c10_empty_symptoms_raises_witness :
    ((("aphids", aphids_entry) : String × Entry) ∈ all_entries aphids_db ∧
      crop_filter_passes none aphids_entry = true ∧
      aphids_entry.symptoms.getD [] ≠ []) ∧
    search_by_symptoms zero_ratio aphids_db [] none 1 = none :=
  ⟨⟨by decide, rfl, by decide⟩,
    c10_empty_symptoms_raises zero_ratio aphids_db none 1
      ⟨("aphids", aphids_entry), by decide, rfl, by decide⟩⟩

end Claims6

section Claims7

open LookupService IdentService Fixtures

/-- C1: for every entry whose name fields (after lowercasing) contain the
lowercased, whitespace-stripped query, `search_by_name` (no category
filter) returns a `MatchResult` for that entry with confidence exactly 1
and match type `"exact"`; moreover the per-entry loop body is independent
of the similarity function on such an entry — the exact branch
short-circuits, so no fuzzy score is computed for it. -/
theorem c1_exact_match_confidence_one (ratio ratio' : String → String → ℚ)
    (db : Database) (query : String) (min_confidence : ℚ) (k : String)
    (e : Entry) (hmem : (k, e) ∈ all_entries db)
    (hex : is_exact_match (py_strip (py_lower query)) e = true) :
    (∃ r ∈ search_by_name ratio db query none min_confidence,
        r.key = k ∧ r.entry = e ∧ r.confidence = 1 ∧ r.match_type = "exact") ∧
    (∀ (cat : Option String) (d : String),
        process_entry ratio (py_strip (py_lower query)) min_confidence d (k, e) =
          process_entry ratio' (py_strip (py_lower query)) min_confidence d (k, e) ∧
        process_entry_combined ratio (py_strip (py_lower query)) cat
            min_confidence (k, e) =
          process_entry_combined ratio' (py_strip (py_lower query)) cat
            min_confidence (k, e)) := by
  have hpe : ∀ (rt : String → String → ℚ) (d : String),
      process_entry rt (py_strip (py_lower query)) min_confidence d (k, e) =
        some ⟨k, e, 1, "exact", d⟩ := by
    intro rt d
    simp [process_entry, hex]
  constructor
  · have hmm : ∀ r : MatchResult,
        r ∈ search_by_name ratio db query none min_confidence ↔
        r ∈ search_by_name_pre ratio db query none min_confidence := by
      intro r
      simp [search_by_name, sort_by_confidence_desc, List.mem_mergeSort]
    cases hd : db.pests_diseases with
    | some entries =>
        refine ⟨⟨k, e, 1, "exact",
          "Exact match found for " ++ (e.category.getD "unknown")⟩,
          ?_, rfl, rfl, rfl, rfl⟩
        rw [hmm]
        simp only [search_by_name_pre, hd]
        exact List.mem_filterMap.mpr ⟨(k, e), by rwa [all_entries, hd] at hmem,
          by simp [process_entry_combined, hpe]⟩
    | none =>
        rw [all_entries, hd] at hmem
        rcases List.mem_append.mp hmem with hin | hin
        · cases hp : db.pests with
          | none => rw [hp] at hin; simp at hin
          | some l =>
              rw [hp] at hin
              refine ⟨⟨k, e, 1, "exact", "Exact match found in " ++ "pests"⟩,
                ?_, rfl, rfl, rfl, rfl⟩
              rw [hmm]
              simp only [search_by_name_pre, hd, List.flatMap_cons,
                List.flatMap_nil, db_lookup, if_pos rfl, hp]
              refine List.mem_append.mpr (Or.inl ?_)
              exact List.mem_filterMap.mpr ⟨(k, e), hin,
                by simp [process_entry_separate, hpe]⟩
        · cases hq : db.diseases with
          | none => rw [hq] at hin; simp at hin
          | some l =>
              rw [hq] at hin
              refine ⟨⟨k, e, 1, "exact", "Exact match found in " ++ "diseases"⟩,
                ?_, rfl, rfl, rfl, rfl⟩
              rw [hmm]
              simp only [search_by_name_pre, hd, List.flatMap_cons,
                List.flatMap_nil, db_lookup, hq]
              refine List.mem_append.mpr (Or.inr ?_)
              simp only [List.append_nil]
              exact List.mem_filterMap.mpr ⟨(k, e), hin,
                by simp [process_entry_separate, hpe]⟩
  · intro cat d
    refine ⟨by rw [hpe, hpe], ?_⟩
    cases cat with
    | none => simp only [process_entry_combined]; rw [hpe, hpe]
    | some c =>
        simp only [process_entry_combined]
        by_cases hc : c ≠ "" ∧ (k, e).2.category ≠ some (py_rstrip_s c)
        · rw [if_pos hc, if_pos hc]
        · rw [if_neg hc, if_neg hc, hpe, hpe]

/-- C1 witness: querying `" Aphids "` against the one-entry base. -/
theorem c1_exact_match_confidence_one_witness :
    ((("aphids", aphids_entry) : String × Entry) ∈ all_entries aphids_db ∧
      is_exact_match (py_strip (py_lower " Aphids ")) aphids_entry = true) ∧
    (∃ r ∈ search_by_name zero_ratio aphids_db " Aphids " none (2/5),
        r.key = "aphids" ∧ r.entry = aphids_entry ∧ r.confidence = 1 ∧
        r.match_type = "exact") :=
  ⟨⟨by decide, by decide⟩,
    (c1_exact_match_confidence_one zero_ratio zero_ratio aphids_db " Aphids "
      (2/5) "aphids" aphids_entry (by decide) (by decide)).1⟩

end Claims7

section Claims8

open LookupService IdentService Fixtures

/-- The first component of an `upd_best` step satisfies any predicate
holding for both the previous best and the candidate. -/
theorem upd_best_fst_preserve {P : ℚ → Prop} {b : ℚ × String × String}
    (hb : P b.1) {c : ℚ} (hc : P c) (m d : String) :
    P (upd_best b c m d).1 := by
  unfold upd_best
  split
  · exact hc
  · exact hb

/-- The first component of the alternative-name fold satisfies any
predicate holding for the start value and all candidates. -/
theorem foldl_upd_best_preserve {P : ℚ → Prop} (g : String → ℚ)
    (mt : String) (dt : String → String) :
    ∀ (l : List String) (b : ℚ × String × String), P b.1 →
      (∀ alt ∈ l, P (g alt)) →
      P ((l.foldl (fun b alt => upd_best b (g alt) mt (dt alt)) b).1) := by
  intro l
  induction l with
  | nil => intro b hb _; exact hb
  | cons x xs ih =>
      intro b hb hall
      exact ih _ (upd_best_fst_preserve hb (hall x (List.mem_cons_self x xs)) mt (dt x))
        (fun alt ha => hall alt (List.mem_cons_of_mem x ha))

/-- An `upd_best` step guarded by a condition preserves a predicate on
the first component when the candidate satisfies it under the guard. -/
theorem step_preserve {P : ℚ → Prop} (cond : Prop) [Decidable cond]
    (b : ℚ × String × String) (hb : P b.1) {c : ℚ} (hc : cond → P c)
    (m d : String) :
    P (if cond then upd_best b c m d else b).1 := by
  split
  · exact upd_best_fst_preserve hb (hc ‹cond›) m d
  · exact hb

/-- A fuzzy match's confidence is positive and is the ratio of the query
against one of the entry's candidate name fields. -/
theorem calculate_fuzzy_match_confidence (ratio : String → String → ℚ)
    (q : String) (e : Entry) (r : MatchResult)
    (h : calculate_fuzzy_match ratio q e = some r) :
    0 < r.confidence ∧ ∃ s ∈ fuzzy_candidates e, r.confidence = ratio q s := by
  classical
  let P : ℚ → Prop := fun x => x = 0 ∨ ∃ s ∈ fuzzy_candidates e, x = ratio q s
  let b0 : ℚ × String × String := (0, "", "")
  let b1 := if py_lower (e.name.getD "") ≠ "" then
      upd_best b0 (ratio q (py_lower (e.name.getD ""))) "fuzzy"
        ("Fuzzy match with name: " ++ e.name.getD "")
    else b0
  let b2 := if py_lower (e.common_name.getD "") ≠ "" then
      upd_best b1 (ratio q (py_lower (e.common_name.getD ""))) "fuzzy"
        ("Fuzzy match with common name: " ++ e.common_name.getD "")
    else b1
  let b3 := if py_lower (e.scientific_name.getD "") ≠ "" then
      upd_best b2 (ratio q (py_lower (e.scientific_name.getD ""))) "scientific"
        ("Fuzzy match with scientific name: " ++ e.scientific_name.getD "")
    else b2
  let b4 := (e.alternative_names.getD []).foldl
    (fun b alt => upd_best b (ratio q (py_lower alt)) "alternative"
      ("Fuzzy match with alternative name: " ++ alt)) b3
  have hcalc : calculate_fuzzy_match ratio q e =
      if 0 < b4.1 then some ⟨"", empty_entry, b4.1, b4.2.1, b4.2.2⟩ else none := rfl
  have h1 : P b1.1 := by
    apply step_preserve
    · exact Or.inl rfl
    · intro hn
      exact Or.inr ⟨py_lower (e.name.getD ""), by simp [fuzzy_candidates, hn], rfl⟩
  have h2 : P b2.1 := by
    apply step_preserve
    · exact h1
    · intro hn
      exact Or.inr ⟨py_lower (e.common_name.getD ""), by simp [fuzzy_candidates, hn], rfl⟩
  have h3 : P b3.1 := by
    apply step_preserve
    · exact h2
    · intro hn
      exact Or.inr ⟨py_lower (e.scientific_name.getD ""), by simp [fuzzy_candidates, hn], rfl⟩
  have h4 : P b4.1 := by
    refine foldl_upd_best_preserve (fun alt => ratio q (py_lower alt)) "alternative"
      (fun alt => "Fuzzy match with alternative name: " ++ alt)
      (e.alternative_names.getD []) b3 h3 ?_
    intro alt ha
    refine Or.inr ⟨py_lower alt, ?_, rfl⟩
    simp only [fuzzy_candidates]
    exact List.mem_append.mpr (Or.inr (List.mem_map_of_mem py_lower ha))
  rw [hcalc] at h
  split_ifs at h with hpos
  · have hr := Option.some.inj h
    rcases h4 with hz | ⟨s, hs, heq⟩
    · rw [hz] at hpos
      exact absurd hpos (lt_irrefl 0)
    · refine ⟨?_, s, hs, ?_⟩
      · rw [← hr]
        exact hpos
      · rw [← hr]
        exact heq

/-- When an entry is no exact match and all its candidate ratios are below
the threshold, the loop body rejects it. -/
theorem process_entry_none_below (ratio : String → String → ℚ) (q : String)
    (mc : ℚ) (d : String) (kv : String × Entry)
    (hex : is_exact_match q kv.2 = false)
    (hall : ∀ s ∈ fuzzy_candidates kv.2, ratio q s < mc) :
    process_entry ratio q mc d kv = none := by
  simp only [process_entry, hex, Bool.false_eq_true, if_false]
  cases hf : calculate_fuzzy_match ratio q kv.2 with
  | none => rfl
  | some r =>
      rcases calculate_fuzzy_match_confidence ratio q kv.2 r hf with ⟨_, s, hs, heq⟩
      have hlt : ¬(mc ≤ r.confidence) := not_le.mpr (heq ▸ hall s hs)
      simp [hlt]

end Claims8

section Claims9

open LookupService IdentService Fixtures

/-- C4: `search_by_name` output is sorted by confidence in non-increasing
order; elements of equal confidence keep their first-seen (entry
iteration) order, the sort being stable; and when no entry is an exact
match and every candidate name-field ratio of every entry is below
`min_confidence`, the result is empty. -/
theorem c4_sorted_stable_empty_below_threshold (ratio : String → String → ℚ)
    (db : Database) (query : String) (category : Option String) (mc : ℚ) :
    List.Pairwise (fun a b : MatchResult => b.confidence ≤ a.confidence)
      (search_by_name ratio db query category mc) ∧
    (∀ a b : MatchResult,
      [a, b].Sublist (search_by_name_pre ratio db query category mc) →
      a.confidence = b.confidence →
      [a, b].Sublist (search_by_name ratio db query category mc)) ∧
    ((∀ kv ∈ all_entries db,
        is_exact_match (py_strip (py_lower query)) kv.2 = false ∧
        ∀ s ∈ fuzzy_candidates kv.2, ratio (py_strip (py_lower query)) s < mc) →
      search_by_name ratio db query category mc = []) := by
  have htrans : ∀ (a b c : MatchResult),
      decide (b.confidence ≤ a.confidence) = true →
      decide (c.confidence ≤ b.confidence) = true →
      decide (c.confidence ≤ a.confidence) = true := by
    intro a b c hab hbc
    rw [decide_eq_true_eq] at hab hbc ⊢
    exact le_trans hbc hab
  have htot : ∀ (a b : MatchResult),
      (decide (b.confidence ≤ a.confidence) ||
        decide (a.confidence ≤ b.confidence)) = true := by
    intro a b
    rcases le_total b.confidence a.confidence with h | h <;> simp [h]
  refine ⟨?_, ?_, ?_⟩
  · have hs := List.sorted_mergeSort htrans htot
      (search_by_name_pre ratio db query category mc)
    exact hs.imp (fun h => of_decide_eq_true h)
  · intro a b hsub heq
    refine List.sublist_mergeSort htrans htot ?_ hsub
    simp only [List.pairwise_cons, List.mem_singleton, forall_eq,
      decide_eq_true_eq]
    refine ⟨le_of_eq heq.symm, ?_, ?_⟩ <;> simp
  · intro hall
    have hnone : ∀ (d : String), ∀ kv ∈ all_entries db,
        process_entry ratio (py_strip (py_lower query)) mc d kv = none := by
      intro d kv hkv
      exact process_entry_none_below ratio _ mc d kv (hall kv hkv).1 (hall kv hkv).2
    have hpre : search_by_name_pre ratio db query category mc = [] := by
      cases hd : db.pests_diseases with
      | some entries =>
          simp only [search_by_name_pre, hd]
          refine List.filterMap_eq_nil_iff.mpr ?_
          intro kv hkv
          have hk : kv ∈ all_entries db := by
            rw [all_entries, hd]
            exact hkv
          cases hcat : category with
          | none =>
              simp only [process_entry_combined]
              exact hnone _ kv hk
          | some c =>
              simp only [process_entry_combined]
              by_cases hc : c ≠ "" ∧ kv.2.category ≠ some (py_rstrip_s c)
              · rw [if_pos hc]
              · rw [if_neg hc]
                exact hnone _ kv hk
      | none =>
          have hcase : ∀ (c : String) (l : List (String × Entry)),
              db_lookup db c = some l →
              l.filterMap (process_entry_separate ratio
                (py_strip (py_lower query)) mc c) = [] := by
            intro c l hl
            refine List.filterMap_eq_nil_iff.mpr ?_
            intro kv hkv
            have hk : kv ∈ all_entries db := by
              rw [all_entries, hd]
              unfold db_lookup at hl
              split_ifs at hl
              · rw [hl]
                exact List.mem_append_left _ hkv
              · rw [hl]
                exact List.mem_append_right _ hkv
            exact hnone _ kv hk
          simp only [search_by_name_pre, hd]
          have hgen : ∀ (cs : List String), (cs.flatMap (fun c =>
              match db_lookup db c with
              | some entries => entries.filterMap (process_entry_separate ratio
                  (py_strip (py_lower query)) mc c)
              | none => [])) = [] := by
            intro cs
            induction cs with
            | nil => rfl
            | cons c cs ih =>
                rw [List.flatMap_cons, ih, List.append_nil]
                cases hl : db_lookup db c with
                | none => rfl
                | some l => exact hcase c l hl
          exact hgen _
    simp [search_by_name, sort_by_confidence_desc, hpre, List.mergeSort_nil]

/-- C4 witness: a query matching nothing, with every ratio 0 and threshold
1, yields the empty result on the one-entry base. -/
theorem c4_sorted_stable_empty_below_threshold_witness :
    (∀ kv ∈ all_entries aphids_db,
        is_exact_match (py_strip (py_lower "zzz")) kv.2 = false ∧
        ∀ s ∈ fuzzy_candidates kv.2,
          zero_ratio (py_strip (py_lower "zzz")) s < 1) ∧
    search_by_name zero_ratio aphids_db "zzz" none 1 = [] := by
  have hprem : ∀ kv ∈ all_entries aphids_db,
      is_exact_match (py_strip (py_lower "zzz")) kv.2 = false ∧
      ∀ s ∈ fuzzy_candidates kv.2,
        zero_ratio (py_strip (py_lower "zzz")) s < 1 := by
    intro kv hkv
    refine ⟨?_, ?_⟩
    · have hk : kv = ("aphids", aphids_entry) := by
        simpa [all_entries, aphids_db] using hkv
      rw [hk]
      decide
    · intro s _
      exact (by decide : (0 : ℚ) < 1)
  exact ⟨hprem,
    (c4_sorted_stable_empty_below_threshold zero_ratio aphids_db "zzz" none 1).2.2 hprem⟩

end Claims9

section Claims10

open LookupService IdentService Fixtures

/-- `get_treatment_recommendations` is the stable sort of the mapped,
filtered record list. -/
theorem get_treatment_recommendations_eq_sort (m : MatchResult) (oo : Bool) :
    get_treatment_recommendations m oo =
      sort_treatments (treatment_candidates m oo) := by
  cases h : m.entry.treatments with
  | none =>
      simp [get_treatment_recommendations, treatment_candidates, h,
        sort_treatments, List.mergeSort_nil]
  | some ts =>
      simp [get_treatment_recommendations, treatment_candidates, h]

/-- The priority assigned to a record is 1, 2, or the record's explicit
value. -/
theorem record_to_recommendation_priority (t : TreatmentRecord) :
    (record_to_recommendation t).priority = 1 ∨
    (record_to_recommendation t).priority = 2 ∨
    ∃ p, t.priority = some (some p) ∧ (record_to_recommendation t).priority = p := by
  rcases hp : t.priority with _ | op
  · right; left
    simp [record_to_recommendation, hp]
  · rcases op with _ | p
    · by_cases h1 : py_lower (t.method.getD "") = "organic"
      · left
        simp [record_to_recommendation, hp, h1]
      · by_cases h2 : py_lower (t.method.getD "") = "cultural"
        · left
          simp [record_to_recommendation, hp, h1, h2]
        · right; left
          simp [record_to_recommendation, hp, h1, h2]
    · right; right
      exact ⟨p, rfl, by simp [record_to_recommendation, hp]⟩

/-- The effectiveness assigned to a record is 0.7 or the record's explicit
value. -/
theorem record_to_recommendation_effectiveness (t : TreatmentRecord) :
    (record_to_recommendation t).effectiveness = 7/10 ∨
    ∃ q, t.effectiveness = some (some q) ∧
      (record_to_recommendation t).effectiveness = q := by
  rcases he : t.effectiveness with _ | oq
  · left
    simp [record_to_recommendation, he]
  · rcases oq with _ | q
    · left
      simp [record_to_recommendation, he]
    · right
      exact ⟨q, rfl, by simp [record_to_recommendation, he]⟩

/-- C5 (amended): `get_treatment_recommendations` output is sorted by
priority ascending then effectiveness descending, stable on ties; each
returned priority/effectiveness is the record's explicit value when
present, else the defaults (priority 2 for an absent key, 1 or 2 by
method for a null key; effectiveness 0.7) — so the returned priorities
lie in `{1,2,3}` and effectiveness in `[0,1]` whenever every record's
explicit values do. -/
theorem c5_sorted_and_conditional_ranges (m : MatchResult)
    (organic_only : Bool) :
    List.Pairwise (fun a b : TreatmentRecommendation =>
        a.priority < b.priority ∨
        (a.priority = b.priority ∧ b.effectiveness ≤ a.effectiveness))
      (get_treatment_recommendations m organic_only) ∧
    (∀ a b : TreatmentRecommendation,
      [a, b].Sublist (treatment_candidates m organic_only) →
      a.priority = b.priority → a.effectiveness = b.effectiveness →
      [a, b].Sublist (get_treatment_recommendations m organic_only)) ∧
    ((∀ t ∈ m.entry.treatments.getD [],
        (∀ p, t.priority = some (some p) → p = 1 ∨ p = 2 ∨ p = 3) ∧
        (∀ q, t.effectiveness = some (some q) → 0 ≤ q ∧ q ≤ 1)) →
      ∀ r ∈ get_treatment_recommendations m organic_only,
        (r.priority = 1 ∨ r.priority = 2 ∨ r.priority = 3) ∧
        0 ≤ r.effectiveness ∧ r.effectiveness ≤ 1) := by
  have htrans : ∀ (a b c : TreatmentRecommendation),
      decide (a.priority < b.priority ∨
        (a.priority = b.priority ∧ b.effectiveness ≤ a.effectiveness)) = true →
      decide (b.priority < c.priority ∨
        (b.priority = c.priority ∧ c.effectiveness ≤ b.effectiveness)) = true →
      decide (a.priority < c.priority ∨
        (a.priority = c.priority ∧ c.effectiveness ≤ a.effectiveness)) = true := by
    intro a b c hab hbc
    rw [decide_eq_true_eq] at hab hbc ⊢
    rcases hab with h1 | ⟨h1, h1e⟩ <;> rcases hbc with h2 | ⟨h2, h2e⟩
    · exact Or.inl (lt_trans h1 h2)
    · exact Or.inl (h2 ▸ h1)
    · exact Or.inl (h1 ▸ h2)
    · exact Or.inr ⟨h1.trans h2, le_trans h2e h1e⟩
  have htot : ∀ (a b : TreatmentRecommendation),
      (decide (a.priority < b.priority ∨
         (a.priority = b.priority ∧ b.effectiveness ≤ a.effectiveness)) ||
       decide (b.priority < a.priority ∨
         (b.priority = a.priority ∧ a.effectiveness ≤ b.effectiveness))) = true := by
    intro a b
    rcases lt_trichotomy a.priority b.priority with h | h | h
    · simp [h]
    · rcases le_total b.effectiveness a.effectiveness with he | he
      · simp [h, he]
      · simp [h.symm, he]
    · simp [h]
  rw [get_treatment_recommendations_eq_sort]
  refine ⟨?_, ?_, ?_⟩
  · have hs := List.sorted_mergeSort htrans htot (treatment_candidates m organic_only)
    exact hs.imp (fun h => of_decide_eq_true h)
  · intro a b hsub hp he
    refine List.sublist_mergeSort htrans htot ?_ hsub
    simp only [List.pairwise_cons, List.mem_singleton, forall_eq,
      decide_eq_true_eq]
    refine ⟨Or.inr ⟨hp, le_of_eq he.symm⟩, ?_, ?_⟩ <;> simp
  · intro hrange r hr
    have hr' : r ∈ treatment_candidates m organic_only := by
      have := List.mem_mergeSort.mp hr
      exact this
    cases h : m.entry.treatments with
    | none =>
        rw [treatment_candidates, h] at hr'
        simp at hr'
    | some ts =>
        rw [treatment_candidates, h] at hr'
        rcases List.mem_map.mp hr' with ⟨t, htf, rfl⟩
        have ht : t ∈ ts := (List.mem_filter.mp htf).1
        have hrt := hrange t (by rw [h]; exact ht)
        constructor
        · rcases record_to_recommendation_priority t with h1 | h2 | ⟨p, hp, hpe⟩
          · exact Or.inl h1
          · exact Or.inr (Or.inl h2)
          · rw [hpe]
            exact hrt.1 p hp
        · rcases record_to_recommendation_effectiveness t with h1 | ⟨q, hq, hqe⟩
          · rw [h1]
            norm_num
          · rw [hqe]
            exact hrt.2 q hq

/-- C5 witness: a single in-range record. -/
theorem c5_sorted_and_conditional_ranges_witness :
    List.Pairwise (fun a b : TreatmentRecommendation =>
        a.priority < b.priority ∨
        (a.priority = b.priority ∧ b.effectiveness ≤ a.effectiveness))
      (get_treatment_recommendations in_range_match false) ∧
    (∀ t ∈ in_range_match.entry.treatments.getD [],
      (∀ p, t.priority = some (some p) → p = 1 ∨ p = 2 ∨ p = 3) ∧
      (∀ q, t.effectiveness = some (some q) → 0 ≤ q ∧ q ≤ 1)) ∧
    (∀ r ∈ get_treatment_recommendations in_range_match false,
      (r.priority = 1 ∨ r.priority = 2 ∨ r.priority = 3) ∧
      0 ≤ r.effectiveness ∧ r.effectiveness ≤ 1) := by
  have hrange : ∀ t ∈ in_range_match.entry.treatments.getD [],
      (∀ p, t.priority = some (some p) → p = 1 ∨ p = 2 ∨ p = 3) ∧
      (∀ q, t.effectiveness = some (some q) → 0 ≤ q ∧ q ≤ 1) := by
    intro t ht
    have heq : t = in_range_record := by
      simpa [in_range_match, empty_entry] using ht
    subst heq
    constructor
    · intro p hp
      have : p = 1 := by
        simpa [in_range_record] using hp.symm
      exact Or.inl this
    · intro q hq
      have : q = 1 := by
        simpa [in_range_record] using hq.symm
      rw [this]
      exact ⟨by decide, by decide⟩
  exact ⟨(c5_sorted_and_conditional_ranges in_range_match false).1, hrange,
    (c5_sorted_and_conditional_ranges in_range_match false).2.2 hrange⟩

end Claims10
